import Mathlib

/-!
Verification of `src/remote_console_tcp.py` (serial/TCP tunnel-connection
lifecycle manager) against its natural-language specification.

The embedding is a shallow, executable model of the connection-lifecycle
core of the program.  Fallible system calls (opening a serial device,
binding a TCP listener, spawning the tunnel-client child process) are
modelled by explicit environment booleans; the file system holding the
generated configuration artifacts is modelled as a list of
(path-identifier, rendered content) pairs, with `tempfile` uniqueness
modelled by a monotone fresh-path counter; the `messagebox` warning shown
on a proxy conflict is modelled by a warning log.  Each manager operation
is translated from the corresponding method of class `FRPGUI`, and
asynchronous steps (`stop_connection`'s worker thread, the output-reader
thread's end-of-stream status update, the scheduled conflict callbacks)
are linearized as atomic events on the manager state.
-/

namespace RemoteConsoleTcp

/-- Connection kind: `conn_type` field of `FRPConnection` (`"serial"` or `"tcp"`). -/
inductive ConnType where
  | serial : ConnType
  | tcp : ConnType
deriving DecidableEq

/-- Connection status: the `status` field of `FRPConnection`; the source only
ever stores the strings `"Stopped"` and `"Running"`. -/
inductive Status where
  | Stopped : Status
  | Running : Status
deriving DecidableEq

/-- Model of class `SerialBridge`.  `serOpen` models `self.ser` being an open
`serial.Serial` handle; `running` is the `self.running` flag (the TCP listener
and its accept loop are live exactly when `running` is set). -/
structure SerialBridge where
  serial_port : String
  baudrate : Nat
  local_port : Nat
  serOpen : Bool
  running : Bool
deriving DecidableEq

/-- Outcome of `SerialBridge.start`: the method can return `True`, return
`False`, or let an exception escape to the caller. -/
inductive BridgeStartOutcome where
  | ok : SerialBridge → BridgeStartOutcome
  | failed : SerialBridge → BridgeStartOutcome
  | raised : SerialBridge → BridgeStartOutcome
deriving DecidableEq

/-- `SerialBridge.__init__`: `ser = None`, `running = False`. -/
def SerialBridge.mk0 (serial_port : String) (baudrate local_port : Nat) : SerialBridge :=
  { serial_port := serial_port, baudrate := baudrate, local_port := local_port,
    serOpen := false, running := false }

/-- `SerialBridge.start` (lines 128-154).  `openOk` models whether
`serial.Serial(...)` succeeds, `bindOk` whether
`socketserver.ThreadingTCPServer(("0.0.0.0", local_port), handler)` can bind.
The serial open is wrapped in `try/except` and failure makes the method
return `False`; the listener construction is NOT wrapped, so a bind failure
propagates as an exception to the caller, with the serial device left open. -/
def SerialBridge.start (b : SerialBridge) (openOk bindOk : Bool) : BridgeStartOutcome :=
  if openOk = false then BridgeStartOutcome.failed b
  else if bindOk = false then BridgeStartOutcome.raised { b with serOpen := true }
  else BridgeStartOutcome.ok { b with serOpen := true, running := true }

/-- `SerialBridge.stop` (lines 156-183): idempotent; closes the serial device
and shuts the listener down. -/
def SerialBridge.stop (b : SerialBridge) : SerialBridge :=
  if b.running = false then b
  else { b with serOpen := false, running := false }

/-- Predicate used in the theorems: the outcome is a `False` return value. -/
def returnedFalse : BridgeStartOutcome → Bool
  | BridgeStartOutcome.failed _ => true
  | _ => false

/-- Predicate used in the theorems: the outcome is an escaped exception. -/
def raisedOutcome : BridgeStartOutcome → Bool
  | BridgeStartOutcome.raised _ => true
  | _ => false

/-- Local bridge port computed in `add_serial_connection` (line 554):
`local_port_num = 20000 + (remote_port % 1000)`. -/
def addSerialLocalPort (remote_port : Nat) : Nat := 20000 + remote_port % 1000

/-- Local bridge port computed in `start_connection` (line 775):
`local_port_num = 20000 + (conn.remote_port % 1000)`. -/
def startConnLocalPort (remote_port : Nat) : Nat := 20000 + remote_port % 1000

/-- A rendered configuration artifact: a list of sections, each a section name
with its ordered key/value entries (the shape `configparser` writes). -/
abbrev ConfigFile := List (String × List (String × String))

/-- The FRP configuration built in `add_serial_connection` (lines 560-572) and
`add_tcp_connection` (lines 611-623): a `[common]` section and one
`[proxy_<remote_port>]` section.  `configparser.read_dict` passes the integer
values through `str()`, modelled by `toString`. -/
def makeFrpConfig (server_addr : String) (server_port : Nat) (token : String)
    (local_ip : String) (local_port remote_port : Nat) : ConfigFile :=
  [("common",
     [("server_addr", server_addr),
      ("server_port", toString server_port),
      ("authentication_method", "token"),
      ("token", token)]),
   ("proxy_" ++ toString remote_port,
     [("type", "tcp"),
      ("local_ip", local_ip),
      ("local_port", toString local_port),
      ("remote_port", toString remote_port)])]

/-- The configuration artifact as the specification words it (spec section 6):
a common section with server address, server port, authentication method fixed
to `token`, and token; and a proxy section keyed by the remote port with
`type = tcp`, the local IP, the local port and the remote port.  Written
independently of `makeFrpConfig` for the refinement comparison. -/
def specConfigArtifact (address : String) (port : Nat) (token : String)
    (ip : String) (localPort remotePort : Nat) : ConfigFile :=
  [("common",
     [("server_addr", address),
      ("server_port", toString port),
      ("authentication_method", "token"),
      ("token", token)]),
   ("proxy_" ++ toString remotePort,
     [("type", "tcp"),
      ("local_ip", ip),
      ("local_port", toString localPort),
      ("remote_port", toString remotePort)])]

/-- Model of class `FRPConnection` (lines 271-291).  `hasProcess` models
`self.process is not None`; `processLive` models holding a handle to a child
process that is still running (`process is not None and process.poll() is None`).
UI fields (`frame`, `buttons`) are presentation and are omitted.  `ini_path`
is the identifier of the connection's configuration artifact; since every
artifact is created by `tempfile.NamedTemporaryFile` with a fresh unique name,
paths are modelled as numbers drawn from a monotone counter. -/
structure FRPConnection where
  local_ip : String
  local_port : Nat
  remote_port : Nat
  ini_path : Nat
  conn_type : ConnType
  serial_port : Option String
  hasProcess : Bool
  processLive : Bool
  status : Status
  bridge : Option SerialBridge
  baudrate : Option Nat
deriving DecidableEq

/-- Whether the connection holds a SerialBridge whose accept loop is running. -/
def connBridgeRunning (c : FRPConnection) : Bool :=
  match c.bridge with
  | some b => b.running
  | none => false

/-- Model of the manager state of class `FRPGUI`: the `connections` list, plus
the modelled environment: the artifacts on disk, the fresh-path counter for
`tempfile`, whether `FRPC_EXEC` exists on disk, the loaded server settings,
and the log of conflict warnings shown via `messagebox.showwarning`. -/
structure FRPGUI where
  server_addr : String
  server_port : Nat
  server_token : String
  frpcExists : Bool
  connections : List FRPConnection
  artifacts : List (Nat × ConfigFile)
  nextPath : Nat
  warnings : List Nat
deriving DecidableEq

/-- `FRPGUI.__init__`: empty connection list; server settings as loaded by
`load_frp_config`; no artifacts written yet. -/
def initState (addr : String) (port : Nat) (token : String) (frpc : Bool) : FRPGUI :=
  { server_addr := addr, server_port := port, server_token := token,
    frpcExists := frpc, connections := [], artifacts := [], nextPath := 0,
    warnings := [] }

/-- Apply an update to the connection object identified by `id` (Python
mutates the `FRPConnection` object in place; connections are identified by
their unique `ini_path`). -/
def updateConn (s : FRPGUI) (id : Nat) (f : FRPConnection → FRPConnection) : FRPGUI :=
  { s with connections := s.connections.map (fun c => if c.ini_path = id then f c else c) }

/-- Effect of `FRPGUI.start_connection` (lines 755-808) on the target
connection.  `frpc` is whether `os.path.exists(FRPC_EXEC)` holds; `openOk` and
`bindOk` drive the serial-bridge rebuild.  Order follows the source: the
already-running check, the executable check, then for serial connections the
baud-rate check, stopping the old bridge (the stopped object stays attached),
rebuilding a bridge on the derived port, and finally spawning the child
process and setting status `"Running"`. -/
def start_connection_conn (frpc openOk bindOk : Bool) (c : FRPConnection) : FRPConnection :=
  if c.status = Status.Running then c
  else if frpc = false then c
  else
    match c.conn_type with
    | ConnType.tcp =>
      { c with hasProcess := true, processLive := true, status := Status.Running }
    | ConnType.serial =>
      match c.baudrate with
      | none => c
      | some baud =>
        let c1 := { c with bridge := c.bridge.map SerialBridge.stop }
        let lp := startConnLocalPort c.remote_port
        match SerialBridge.start (SerialBridge.mk0 (c.serial_port.getD "") baud lp) openOk bindOk with
        | BridgeStartOutcome.failed _ => c1
        | BridgeStartOutcome.raised _ => c1
        | BridgeStartOutcome.ok b =>
          { c1 with bridge := some b, local_port := lp,
                    hasProcess := true, processLive := true, status := Status.Running }

/-- `FRPGUI.start_connection` as a state transformer on the manager. -/
def start_connection (s : FRPGUI) (id : Nat) (openOk bindOk : Bool) : FRPGUI :=
  updateConn s id (start_connection_conn s.frpcExists openOk bindOk)

/-- Effect of `FRPGUI._do_stop_connection` (lines 817-839): stop and drop the
bridge, terminate the child process (graceful then forced), clear the handle,
mark the connection `"Stopped"`. -/
def do_stop_connection (c : FRPConnection) : FRPConnection :=
  { c with bridge := none, hasProcess := false, processLive := false,
           status := Status.Stopped }

/-- `FRPGUI.stop_connection` (lines 810-815): no-op when already `"Stopped"`,
otherwise the teardown runs on a worker thread; its completed effect is
linearized here. -/
def stop_connection_conn (c : FRPConnection) : FRPConnection :=
  if c.status = Status.Stopped then c else do_stop_connection c

/-- `FRPGUI.stop_connection` as a state transformer on the manager. -/
def stop_connection (s : FRPGUI) (id : Nat) : FRPGUI :=
  updateConn s id stop_connection_conn

/-- `FRPGUI.remove_connection` (lines 841-851): trigger stop, then remove the
record from `self.connections` (`list.remove` drops the first occurrence, and
only if present).  No artifact is touched. -/
def remove_connection (s : FRPGUI) (id : Nat) : FRPGUI :=
  { s with connections :=
      ((s.connections.map (fun c => if c.ini_path = id then stop_connection_conn c else c)).eraseP
        (fun c => c.ini_path == id)) }

/-- Final block of `FRPGUI.read_output` (lines 872-875): when the output
stream ends because the child process exited, the connection is marked
`"Stopped"` provided `conn.process is not None` (the dead handle itself is
not cleared there). -/
def process_exited_conn (c : FRPConnection) : FRPConnection :=
  if c.hasProcess then { c with processLive := false, status := Status.Stopped } else c

/-- Process-exit event as a state transformer on the manager. -/
def process_exited (s : FRPGUI) (id : Nat) : FRPGUI :=
  updateConn s id process_exited_conn

/-- `FRPGUI.handle_proxy_already_exists` (lines 919-922): warn the user about
the conflicting public port, then remove the connection. -/
def handle_proxy_already_exists (s : FRPGUI) (c : FRPConnection) : FRPGUI :=
  remove_connection { s with warnings := s.warnings ++ [c.remote_port] } c.ini_path

/-- `FRPGUI.add_serial_connection` (lines 532-586).  Numeric parsing of the
entry widgets (`isdigit`, `int(...)`) is modelled by taking the port and baud
rate as numbers; the explicit validations are the non-empty device name and
the 1..65535 range check.  The bridge is created and started first; on bridge
failure (returned or raised) nothing is added.  On success the configuration
artifact is written to a fresh temporary path, the connection record is
appended (status `"Stopped"`), and `start_connection` is invoked. -/
def add_serial_connection (s : FRPGUI) (com : String) (baud remote_port : Nat)
    (openOk bindOk : Bool) : FRPGUI :=
  if com = "" then s
  else if ¬(1 ≤ remote_port ∧ remote_port ≤ 65535) then s
  else
    let lp := addSerialLocalPort remote_port
    match SerialBridge.start (SerialBridge.mk0 com baud lp) openOk bindOk with
    | BridgeStartOutcome.failed _ => s
    | BridgeStartOutcome.raised _ => s
    | BridgeStartOutcome.ok bridge =>
      let cfg := makeFrpConfig s.server_addr s.server_port s.server_token "127.0.0.1" lp remote_port
      let path := s.nextPath
      let conn : FRPConnection :=
        { local_ip := "127.0.0.1", local_port := lp, remote_port := remote_port,
          ini_path := path, conn_type := ConnType.serial, serial_port := some com,
          hasProcess := false, processLive := false, status := Status.Stopped,
          bridge := some bridge, baudrate := some baud }
      let s1 := { s with connections := s.connections ++ [conn],
                         artifacts := s.artifacts ++ [(path, cfg)],
                         nextPath := path + 1 }
      start_connection s1 path openOk bindOk

/-- `FRPGUI.add_tcp_connection` (lines 588-635): validations are the
non-empty IP, numeric ports and the 1..65535 range of the public port (the
local port has no range check in the source); then the artifact is written to
a fresh temporary path, the record is appended and `start_connection` runs. -/
def add_tcp_connection (s : FRPGUI) (ip : String) (port remote_port : Nat) : FRPGUI :=
  if ip = "" then s
  else if ¬(1 ≤ remote_port ∧ remote_port ≤ 65535) then s
  else
    let cfg := makeFrpConfig s.server_addr s.server_port s.server_token ip port remote_port
    let path := s.nextPath
    let conn : FRPConnection :=
      { local_ip := ip, local_port := port, remote_port := remote_port,
        ini_path := path, conn_type := ConnType.tcp, serial_port := none,
        hasProcess := false, processLive := false, status := Status.Stopped,
        bridge := none, baudrate := none }
    let s1 := { s with connections := s.connections ++ [conn],
                       artifacts := s.artifacts ++ [(path, cfg)],
                       nextPath := path + 1 }
    start_connection s1 path true true

/-- `pat` is a leading segment of the character list. -/
def leadsWith : List Char → List Char → Bool
  | [], _ => true
  | _ :: _, [] => false
  | p :: ps, c :: cs => p == c && leadsWith ps cs

/-- `pat` occurs as a contiguous segment of the character list (the semantics
of Python's `in` operator on strings). -/
def occursIn (pat : List Char) : List Char → Bool
  | [] => leadsWith pat []
  | c :: cs => leadsWith pat (c :: cs) || occursIn pat cs

/-- Python `pat in hay` for strings. -/
def strContains (hay pat : String) : Bool := occursIn pat.toList hay.toList

/-- Python `line.rstrip()`: drop trailing whitespace. -/
def rstrip (s : String) : String :=
  String.mk ((s.toList.reverse.dropWhile Char.isWhitespace).reverse)

/-- The conflict-signature test of `read_output` (line 866): the stripped line
contains both `"start error: proxy ["` and `"] already exists"`. -/
def isConflictLine (line : String) : Bool :=
  strContains line "start error: proxy [" && strContains line "] already exists"

/-- A raw output line that triggers the conflict handler: non-empty and, once
right-stripped, matching the conflict signature. -/
def conflictLineB (l : String) : Bool := !(l == "") && isConflictLine (rstrip l)

/-- Scanning loop of `FRPGUI.read_output` (lines 860-867): for each non-empty
output line whose right-stripped form matches the conflict signature, one
invocation of `handle_proxy_already_exists` is scheduled for the connection
that produced the stream.  The result is the list of scheduled callbacks,
each carrying that connection. -/
def read_output (conn : FRPConnection) : List String → List FRPConnection
  | [] => []
  | l :: ls =>
    if l = "" then read_output conn ls
    else if isConflictLine (rstrip l) then conn :: read_output conn ls
    else read_output conn ls

/-- Feed a supervised process's output lines for connection `c` into the
manager: every scheduled conflict callback runs in order. -/
def process_output (s : FRPGUI) (c : FRPConnection) (lines : List String) : FRPGUI :=
  (read_output c lines).foldl handle_proxy_already_exists s

/-- The all-stopped test of `check_all_stopped` (lines 899-903). -/
def allStoppedB (conns : List FRPConnection) : Bool :=
  conns.all (fun c => c.status == Status.Stopped)

/-- The stop-all sweep of `FRPGUI.on_close` (lines 886-887): trigger stop on
every connection (each stop's asynchronous teardown is linearized). -/
def on_close_stop_all (conns : List FRPConnection) : List FRPConnection :=
  conns.map stop_connection_conn

/-- The artifact clean-up of `check_all_stopped` (lines 906-913): delete the
ini file of every connection currently in the list. -/
def delete_config_files (conns : List FRPConnection) (arts : List (Nat × ConfigFile)) :
    List (Nat × ConfigFile) :=
  arts.filter (fun pc => conns.all (fun c => !(c.ini_path == pc.1)))

/-- `FRPGUI.check_all_stopped` (lines 892-917).  Poll `n` observes the
connection list `connsAt n`; polls are 200 ms apart, so the elapsed wall-clock
time at poll `n` is `200 * n` ms and the `time.time() - close_start_time > 10`
timeout check becomes `10000 < 200 * n`.  On timeout the window is destroyed
with the artifacts untouched (`true` = forced); when every connection is
`"Stopped"` the artifacts of the current connections are deleted and the
window is destroyed normally (`false`); otherwise the check is rescheduled
200 ms later. -/
def check_all_stopped (connsAt : Nat → List FRPConnection)
    (arts : List (Nat × ConfigFile)) (n : Nat) : List (Nat × ConfigFile) × Bool :=
  if h : 10000 < 200 * n then (arts, true)
  else if allStoppedB (connsAt n) then (delete_config_files (connsAt n) arts, false)
  else check_all_stopped connsAt arts (n + 1)
termination_by 51 - n
decreasing_by omega

/-- Reachable manager states: the initial state followed by any interleaving
of the user-driven operations and the asynchronous events (stop completion,
child-process exit, scheduled conflict callbacks). -/
inductive Reachable : FRPGUI → Prop where
  | init (addr : String) (port : Nat) (token : String) (frpc : Bool) :
      Reachable (initState addr port token frpc)
  | addSerial {s : FRPGUI} (com : String) (baud remote_port : Nat) (openOk bindOk : Bool) :
      Reachable s → Reachable (add_serial_connection s com baud remote_port openOk bindOk)
  | addTcp {s : FRPGUI} (ip : String) (port remote_port : Nat) :
      Reachable s → Reachable (add_tcp_connection s ip port remote_port)
  | startConn {s : FRPGUI} (id : Nat) (openOk bindOk : Bool) :
      Reachable s → Reachable (start_connection s id openOk bindOk)
  | stopConn {s : FRPGUI} (id : Nat) :
      Reachable s → Reachable (stop_connection s id)
  | removeConn {s : FRPGUI} (id : Nat) :
      Reachable s → Reachable (remove_connection s id)
  | procExit {s : FRPGUI} (id : Nat) :
      Reachable s → Reachable (process_exited s id)
  | conflict {s : FRPGUI} (c : FRPConnection) :
      Reachable s → Reachable (handle_proxy_already_exists s c)

/-- Per-connection status/process consistency. -/
def ConnOk (c : FRPConnection) : Prop :=
  (c.status = Status.Running → c.processLive = true) ∧
  (c.status = Status.Stopped → c.processLive = false)

/-- Structural invariant of reachable manager states. -/
structure Inv (s : FRPGUI) : Prop where
  connOk : ∀ c ∈ s.connections, ConnOk c
  connPathLt : ∀ c ∈ s.connections, c.ini_path < s.nextPath
  artPathLt : ∀ pc ∈ s.artifacts, pc.1 < s.nextPath
  connNodup : (s.connections.map (fun c => c.ini_path)).Nodup
  artNodup : (s.artifacts.map (fun pc => pc.1)).Nodup

lemma start_connection_conn_ini_path (frpc openOk bindOk : Bool) (c : FRPConnection) :
    (start_connection_conn frpc openOk bindOk c).ini_path = c.ini_path := by
  unfold start_connection_conn
  split
  · rfl
  split
  · rfl
  split
  · rfl
  split
  · rfl
  dsimp only
  split <;> rfl

lemma start_connection_conn_remote_port (frpc openOk bindOk : Bool) (c : FRPConnection) :
    (start_connection_conn frpc openOk bindOk c).remote_port = c.remote_port := by
  unfold start_connection_conn
  split
  · rfl
  split
  · rfl
  split
  · rfl
  split
  · rfl
  dsimp only
  split <;> rfl

lemma start_connection_conn_connOk (frpc openOk bindOk : Bool) (c : FRPConnection)
    (h : ConnOk c) : ConnOk (start_connection_conn frpc openOk bindOk c) := by
  unfold start_connection_conn
  split
  · exact h
  split
  · exact h
  split
  · constructor <;> simp [ConnOk]
  split
  · exact h
  dsimp only
  split
  · exact h
  · exact h
  · constructor <;> simp [ConnOk]

lemma stop_connection_conn_ini_path (c : FRPConnection) :
    (stop_connection_conn c).ini_path = c.ini_path := by
  unfold stop_connection_conn do_stop_connection
  split <;> rfl

lemma stop_connection_conn_connOk (c : FRPConnection) (h : ConnOk c) :
    ConnOk (stop_connection_conn c) := by
  unfold stop_connection_conn do_stop_connection
  split
  · exact h
  · constructor <;> simp [ConnOk]

lemma stop_connection_conn_status (c : FRPConnection) :
    (stop_connection_conn c).status = Status.Stopped := by
  unfold stop_connection_conn do_stop_connection
  split
  · assumption
  · rfl

lemma process_exited_conn_ini_path (c : FRPConnection) :
    (process_exited_conn c).ini_path = c.ini_path := by
  unfold process_exited_conn
  split <;> rfl

lemma process_exited_conn_connOk (c : FRPConnection) (h : ConnOk c) :
    ConnOk (process_exited_conn c) := by
  unfold process_exited_conn
  split
  · constructor <;> simp [ConnOk]
  · exact h

lemma updateConn_inv {s : FRPGUI} {id : Nat} {f : FRPConnection → FRPConnection}
    (hOk : ∀ c, ConnOk c → ConnOk (f c))
    (hId : ∀ c, (f c).ini_path = c.ini_path)
    (h : Inv s) : Inv (updateConn s id f) := by
  have hmap : (s.connections.map (fun c => if c.ini_path = id then f c else c)).map
      (fun c => c.ini_path) = s.connections.map (fun c => c.ini_path) := by
    rw [List.map_map]
    apply List.map_congr_left
    intro c _
    by_cases hc : c.ini_path = id <;> simp [hc, hId]
  refine ⟨?_, ?_, ?_, ?_, ?_⟩
  · intro c hc
    rcases List.mem_map.mp hc with ⟨c0, hc0, rfl⟩
    by_cases h0 : c0.ini_path = id
    · simpa [h0] using hOk c0 (h.connOk c0 hc0)
    · simpa [h0] using h.connOk c0 hc0
  · intro c hc
    rcases List.mem_map.mp hc with ⟨c0, hc0, rfl⟩
    by_cases h0 : c0.ini_path = id
    · simpa [h0, hId] using h.connPathLt c0 hc0
    · simpa [h0] using h.connPathLt c0 hc0
  · exact h.artPathLt
  · simpa [updateConn, hmap] using h.connNodup
  · exact h.artNodup

lemma remove_connection_inv {s : FRPGUI} {id : Nat} (h : Inv s) :
    Inv (remove_connection s id) := by
  set g : FRPConnection → FRPConnection :=
    fun c => if c.ini_path = id then stop_connection_conn c else c with hg
  have hgid : ∀ c, (g c).ini_path = c.ini_path := by
    intro c
    by_cases hc : c.ini_path = id <;> simp [hg, hc, stop_connection_conn_ini_path]
  have hsub : List.Sublist ((s.connections.map g).eraseP (fun c => c.ini_path == id))
      (s.connections.map g) := List.eraseP_sublist _
  have hmem : ∀ c ∈ (s.connections.map g).eraseP (fun c => c.ini_path == id),
      c ∈ s.connections.map g := fun c hc => hsub.subset hc
  have hmapg : (s.connections.map g).map (fun c => c.ini_path)
      = s.connections.map (fun c => c.ini_path) := by
    rw [List.map_map]
    exact List.map_congr_left (fun c _ => hgid c)
  refine ⟨?_, ?_, ?_, ?_, ?_⟩
  · intro c hc
    rcases List.mem_map.mp (hmem c hc) with ⟨c0, hc0, rfl⟩
    by_cases h0 : c0.ini_path = id
    · simpa [hg, h0] using stop_connection_conn_connOk c0 (h.connOk c0 hc0)
    · simpa [hg, h0] using h.connOk c0 hc0
  · intro c hc
    rcases List.mem_map.mp (hmem c hc) with ⟨c0, hc0, rfl⟩
    have := h.connPathLt c0 hc0
    simpa [hgid c0] using this
  · exact h.artPathLt
  · have hsub2 : List.Sublist
        (((s.connections.map g).eraseP (fun c => c.ini_path == id)).map (fun c => c.ini_path))
        ((s.connections.map g).map (fun c => c.ini_path)) := hsub.map _
    rw [hmapg] at hsub2
    exact h.connNodup.sublist hsub2
  · exact h.artNodup

lemma nodup_append_single {l : List Nat} {a : Nat} (h : l.Nodup) (ha : a ∉ l) :
    (l ++ [a]).Nodup := by
  rw [List.nodup_append]
  refine ⟨h, List.nodup_singleton a, ?_⟩
  intro x hx hxa
  have hxe : x = a := by simpa using hxa
  exact ha (hxe ▸ hx)

lemma fresh_not_mem_conn {s : FRPGUI} (h : Inv s) :
    s.nextPath ∉ s.connections.map (fun c => c.ini_path) := by
  intro hmem
  rcases List.mem_map.mp hmem with ⟨c, hc, hce⟩
  exact absurd (hce ▸ h.connPathLt c hc) (lt_irrefl _)

lemma fresh_not_mem_art {s : FRPGUI} (h : Inv s) :
    s.nextPath ∉ s.artifacts.map (fun pc => pc.1) := by
  intro hmem
  rcases List.mem_map.mp hmem with ⟨pc, hpc, hce⟩
  exact absurd (hce ▸ h.artPathLt pc hpc) (lt_irrefl _)

lemma append_fresh_inv {s : FRPGUI} (h : Inv s) (conn : FRPConnection) (cfg : ConfigFile)
    (hconnOk : ConnOk conn) (hpath : conn.ini_path = s.nextPath) :
    Inv { s with connections := s.connections ++ [conn],
                 artifacts := s.artifacts ++ [(s.nextPath, cfg)],
                 nextPath := s.nextPath + 1 } := by
  refine ⟨?_, ?_, ?_, ?_, ?_⟩
  · intro c hc
    rcases List.mem_append.mp hc with hc | hc
    · exact h.connOk c hc
    · have hce : c = conn := by simpa using hc
      exact hce ▸ hconnOk
  · intro c hc
    rcases List.mem_append.mp hc with hc | hc
    · exact Nat.lt_succ_of_lt (h.connPathLt c hc)
    · have hce : c = conn := by simpa using hc
      subst hce
      rw [hpath]
      exact Nat.lt_succ_self _
  · intro pc hpc
    rcases List.mem_append.mp hpc with hpc | hpc
    · exact Nat.lt_succ_of_lt (h.artPathLt pc hpc)
    · have hce : pc = (s.nextPath, cfg) := by simpa using hpc
      subst hce
      exact Nat.lt_succ_self _
  · have : (s.connections ++ [conn]).map (fun c => c.ini_path)
        = s.connections.map (fun c => c.ini_path) ++ [s.nextPath] := by
      simp [hpath]
    rw [this]
    exact nodup_append_single h.connNodup (fresh_not_mem_conn h)
  · have : (s.artifacts ++ [(s.nextPath, cfg)]).map (fun pc => pc.1)
        = s.artifacts.map (fun pc => pc.1) ++ [s.nextPath] := by
      simp
    rw [this]
    exact nodup_append_single h.artNodup (fresh_not_mem_art h)

lemma start_connection_inv {s : FRPGUI} {id : Nat} {openOk bindOk : Bool} (h : Inv s) :
    Inv (start_connection s id openOk bindOk) :=
  updateConn_inv (fun c => start_connection_conn_connOk _ _ _ c)
    (fun c => start_connection_conn_ini_path _ _ _ c) h

lemma stop_connection_inv {s : FRPGUI} {id : Nat} (h : Inv s) :
    Inv (stop_connection s id) :=
  updateConn_inv (fun c => stop_connection_conn_connOk c)
    (fun c => stop_connection_conn_ini_path c) h

lemma process_exited_inv {s : FRPGUI} {id : Nat} (h : Inv s) :
    Inv (process_exited s id) :=
  updateConn_inv (fun c => process_exited_conn_connOk c)
    (fun c => process_exited_conn_ini_path c) h

lemma warn_inv {s : FRPGUI} {w : List Nat} (h : Inv s) : Inv { s with warnings := w } :=
  ⟨h.connOk, h.connPathLt, h.artPathLt, h.connNodup, h.artNodup⟩

lemma handle_proxy_already_exists_inv {s : FRPGUI} {c : FRPConnection} (h : Inv s) :
    Inv (handle_proxy_already_exists s c) :=
  remove_connection_inv (warn_inv h)

lemma add_serial_connection_inv {s : FRPGUI} {com : String} {baud remote_port : Nat}
    {openOk bindOk : Bool} (h : Inv s) :
    Inv (add_serial_connection s com baud remote_port openOk bindOk) := by
  unfold add_serial_connection
  split
  · exact h
  split
  · exact h
  dsimp only
  split
  · exact h
  · exact h
  · exact start_connection_inv (append_fresh_inv h _ _ ⟨by simp, by simp⟩ rfl)

lemma add_tcp_connection_inv {s : FRPGUI} {ip : String} {port remote_port : Nat} (h : Inv s) :
    Inv (add_tcp_connection s ip port remote_port) := by
  unfold add_tcp_connection
  split
  · exact h
  split
  · exact h
  dsimp only
  exact start_connection_inv (append_fresh_inv h _ _ ⟨by simp, by simp⟩ rfl)

lemma reachable_inv {s : FRPGUI} (h : Reachable s) : Inv s := by
  induction h with
  | init addr port token frpc =>
    exact ⟨by simp [initState], by simp [initState], by simp [initState],
      by simp [initState], by simp [initState]⟩
  | addSerial com baud remote_port openOk bindOk _ ih => exact add_serial_connection_inv ih
  | addTcp ip port remote_port _ ih => exact add_tcp_connection_inv ih
  | startConn id openOk bindOk _ ih => exact start_connection_inv ih
  | stopConn id _ ih => exact stop_connection_inv ih
  | removeConn id _ ih => exact remove_connection_inv ih
  | procExit id _ ih => exact process_exited_inv ih
  | conflict c _ ih => exact handle_proxy_already_exists_inv ih

lemma eraseP_ini_not_mem {l : List FRPConnection} {i : Nat}
    (h : (l.map (fun c => c.ini_path)).Nodup) :
    ∀ c' ∈ l.eraseP (fun c => c.ini_path == i), c'.ini_path ≠ i := by
  induction l with
  | nil => simp
  | cons a t ih =>
    rw [List.map_cons, List.nodup_cons] at h
    by_cases ha : a.ini_path = i
    · rw [List.eraseP_cons]
      have hpa : (a.ini_path == i) = true := beq_iff_eq.mpr ha
      rw [hpa]
      intro c' hc' hce
      exact h.1 (List.mem_map.mpr ⟨c', by simpa using hc', by rw [hce, ha]⟩)
    · rw [List.eraseP_cons]
      have hpa : (a.ini_path == i) = false := beq_eq_false_iff_ne.mpr ha
      rw [hpa]
      intro c' hc'
      rcases List.mem_cons.mp (by simpa using hc') with hce | hce
      · exact hce ▸ ha
      · exact ih h.2 c' hce

lemma remove_connection_absent {s : FRPGUI} {id : Nat} (h : Inv s) :
    ∀ c' ∈ (remove_connection s id).connections, c'.ini_path ≠ id := by
  set g : FRPConnection → FRPConnection :=
    fun c => if c.ini_path = id then stop_connection_conn c else c with hg
  have hgid : ∀ c, (g c).ini_path = c.ini_path := by
    intro c
    by_cases hc : c.ini_path = id <;> simp [hg, hc, stop_connection_conn_ini_path]
  have hmapg : (s.connections.map g).map (fun c => c.ini_path)
      = s.connections.map (fun c => c.ini_path) := by
    rw [List.map_map]
    exact List.map_congr_left (fun c _ => hgid c)
  have hnd : ((s.connections.map g).map (fun c => c.ini_path)).Nodup := by
    rw [hmapg]
    exact h.connNodup
  exact eraseP_ini_not_mem hnd

lemma handle_conn_ini_mem {s : FRPGUI} {x : FRPConnection} :
    ∀ c' ∈ (handle_proxy_already_exists s x).connections,
      c'.ini_path ∈ s.connections.map (fun c => c.ini_path) := by
  intro c' hc'
  unfold handle_proxy_already_exists remove_connection at hc'
  dsimp only at hc'
  have hc2 := (List.eraseP_sublist _).subset hc'
  rcases List.mem_map.mp hc2 with ⟨c0, hc0, hce⟩
  subst hce
  by_cases h0 : c0.ini_path = x.ini_path
  · rw [if_pos h0, stop_connection_conn_ini_path]
    exact List.mem_map.mpr ⟨c0, hc0, rfl⟩
  · rw [if_neg h0]
    exact List.mem_map.mpr ⟨c0, hc0, rfl⟩

lemma handle_warnings {s : FRPGUI} {x : FRPConnection} :
    (handle_proxy_already_exists s x).warnings = s.warnings ++ [x.remote_port] := rfl

lemma foldl_handle_absent {i : Nat} (cs : List FRPConnection) (s : FRPGUI)
    (h : ∀ c' ∈ s.connections, c'.ini_path ≠ i) :
    ∀ c' ∈ (cs.foldl handle_proxy_already_exists s).connections, c'.ini_path ≠ i := by
  induction cs generalizing s with
  | nil => exact h
  | cons x xs ih =>
    apply ih
    intro c' hc'
    rcases List.mem_map.mp (handle_conn_ini_mem c' hc') with ⟨c0, hc0, hce⟩
    exact hce ▸ h c0 hc0

lemma foldl_handle_warn_mono {w : Nat} (cs : List FRPConnection) (s : FRPGUI)
    (h : w ∈ s.warnings) : w ∈ (cs.foldl handle_proxy_already_exists s).warnings := by
  induction cs generalizing s with
  | nil => exact h
  | cons x xs ih =>
    apply ih
    rw [handle_warnings]
    exact List.mem_append_left _ h

lemma read_output_all_eq {c : FRPConnection} {lines : List String} :
    ∀ x ∈ read_output c lines, x = c := by
  induction lines with
  | nil => simp [read_output]
  | cons l ls ih =>
    intro x hx
    unfold read_output at hx
    split at hx
    · exact ih x hx
    split at hx
    · rcases List.mem_cons.mp hx with h | h
      · exact h
      · exact ih x h
    · exact ih x hx

lemma read_output_self_mem {c : FRPConnection} {lines : List String} {l : String}
    (hl : l ∈ lines) (hc : conflictLineB l = true) : c ∈ read_output c lines := by
  simp only [conflictLineB, Bool.and_eq_true, Bool.not_eq_true', beq_eq_false_iff_ne] at hc
  induction lines with
  | nil => cases hl
  | cons l0 ls ih =>
    rcases List.mem_cons.mp hl with hle | hmem
    · subst hle
      unfold read_output
      rw [if_neg hc.1, if_pos hc.2]
      exact List.mem_cons_self _ _
    · unfold read_output
      split
      · exact ih hmem
      split
      · exact List.mem_cons_of_mem _ (ih hmem)
      · exact ih hmem

lemma read_output_length (c : FRPConnection) (lines : List String) :
    (read_output c lines).length = lines.countP conflictLineB := by
  induction lines with
  | nil => simp [read_output]
  | cons l ls ih =>
    unfold read_output
    rw [List.countP_cons]
    by_cases h1 : l = ""
    · subst h1
      have hb : conflictLineB "" = false := by simp [conflictLineB]
      simp [hb, ih]
    · by_cases h2 : isConflictLine (rstrip l) = true
      · have hb : conflictLineB l = true := by simp [conflictLineB, h1, h2]
        simp [h1, h2, hb, ih]
      · have h2' : isConflictLine (rstrip l) = false := by
          revert h2
          cases isConflictLine (rstrip l) <;> simp
        have hb : conflictLineB l = false := by simp [conflictLineB, h2']
        simp [h1, h2', hb, ih]

lemma check_all_stopped_reaches (connsAt : Nat → List FRPConnection)
    (arts : List (Nat × ConfigFile)) (n0 : Nat) (h50 : n0 ≤ 50)
    (hstop : allStoppedB (connsAt n0) = true) :
    ∀ d n, n + d = n0 →
      (∀ m, n ≤ m → m < n0 → allStoppedB (connsAt m) = false) →
      check_all_stopped connsAt arts n = (delete_config_files (connsAt n0) arts, false) := by
  intro d
  induction d with
  | zero =>
    intro n he _
    have hn : n = n0 := by omega
    subst hn
    unfold check_all_stopped
    rw [dif_neg (by omega : ¬ 10000 < 200 * n)]
    rw [if_pos hstop]
  | succ d ih =>
    intro n he hbef
    have hn : n < n0 := by omega
    unfold check_all_stopped
    rw [dif_neg (by omega : ¬ 10000 < 200 * n)]
    rw [if_neg (by simp [hbef n (Nat.le_refl n) hn])]
    exact ih (n + 1) (by omega) (fun m hm1 hm2 => hbef m (by omega) hm2)

lemma check_all_stopped_forced (connsAt : Nat → List FRPConnection)
    (arts : List (Nat × ConfigFile))
    (hnever : ∀ m, m ≤ 50 → allStoppedB (connsAt m) = false) :
    ∀ d n, 51 ≤ n + d → check_all_stopped connsAt arts n = (arts, true) := by
  intro d
  induction d with
  | zero =>
    intro n h51
    unfold check_all_stopped
    rw [dif_pos (by omega : 10000 < 200 * n)]
  | succ d ih =>
    intro n h51
    by_cases hn : 10000 < 200 * n
    · unfold check_all_stopped
      rw [dif_pos hn]
    · unfold check_all_stopped
      rw [dif_neg hn]
      have hle : n ≤ 50 := by omega
      rw [if_neg (by simp [hnever n hle])]
      exact ih (n + 1) (by omega)

lemma delete_config_files_not_mem (conns : List FRPConnection)
    (arts : List (Nat × ConfigFile)) :
    ∀ c ∈ conns, ∀ pc ∈ delete_config_files conns arts, pc.1 ≠ c.ini_path := by
  intro c hc pc hpc hne
  unfold delete_config_files at hpc
  have hall := (List.mem_filter.mp hpc).2
  have h2 := List.all_eq_true.mp hall c hc
  simp [hne] at h2

lemma delete_config_files_all_owned (conns : List FRPConnection)
    (arts : List (Nat × ConfigFile))
    (h : ∀ pc ∈ arts, ∃ c ∈ conns, pc.1 = c.ini_path) :
    delete_config_files conns arts = [] := by
  unfold delete_config_files
  rw [List.filter_eq_nil_iff]
  intro pc hpc hall
  rcases h pc hpc with ⟨c, hc, hce⟩
  have h2 := List.all_eq_true.mp hall c hc
  simp [hce] at h2

/-- State used by the claim C1 counterexample: two TCP mappings added with the
same public port 3389. -/
def sC1 : FRPGUI :=
  add_tcp_connection
    (add_tcp_connection (initState "203.0.113.7" 7000 "secret" true) "192.168.1.5" 22 3389)
    "192.168.1.6" 22 3389

/-- Claim C1 counterexample: the manager performs no duplicate-remote-port
check.  Adding a second connection whose public port 3389 equals the public
port of an existing active connection is accepted, so afterwards two active
connections share remote port 3389 — refuting the claim that such an add is
rejected and that the remote port is unique among active connections. -/
theorem duplicate_remote_port_accepted_cex :
    sC1.connections.map (fun c => c.remote_port) = [3389, 3389] := by decide

/-- Claim C1 (amended): the remote port is NOT enforced unique among active
connections.  Validation checks only that the inputs are present/numeric and
that the public port lies in 1..65535; an add whose remote port duplicates an
existing active connection's remote port is accepted and appended to the
active set (duplicates surface only at runtime through the server's
proxy-conflict message). -/
theorem add_tcp_ignores_existing_remote_ports (s : FRPGUI) (ip : String) (port r : Nat)
    (hip : ip ≠ "") (h1 : 1 ≤ r) (h2 : r ≤ 65535) :
    (add_tcp_connection s ip port r).connections.map (fun c => c.remote_port)
      = s.connections.map (fun c => c.remote_port) ++ [r] := by
  unfold add_tcp_connection
  rw [if_neg hip, if_neg (not_not_intro ⟨h1, h2⟩)]
  dsimp only
  unfold start_connection updateConn
  dsimp only
  rw [List.map_map]
  have hpt : ∀ c ∈ s.connections ++ [(⟨ip, port, r, s.nextPath, ConnType.tcp, none,
      false, false, Status.Stopped, none, none⟩ : FRPConnection)],
      ((fun c => c.remote_port) ∘ fun c =>
        if c.ini_path = s.nextPath then start_connection_conn s.frpcExists true true c else c) c
        = (fun c => c.remote_port) c := by
    intro c _
    by_cases hc : c.ini_path = s.nextPath <;>
      simp [hc, Function.comp, start_connection_conn_remote_port]
  rw [List.map_congr_left hpt]
  simp

/-- Witness for the amended claim C1 theorem at a concrete input. -/
theorem add_tcp_ignores_existing_remote_ports_witness :
    (add_tcp_connection (initState "a" 7000 "t" true) "10.0.0.1" 22 8022).connections.map
        (fun c => c.remote_port)
      = (initState "a" 7000 "t" true).connections.map (fun c => c.remote_port) ++ [8022] :=
  add_tcp_ignores_existing_remote_ports (initState "a" 7000 "t" true) "10.0.0.1" 22 8022
    (by decide) (by decide) (by decide)

/-- State used by the claim C2 counterexample: a serial mapping added while
the tunnel-client executable is missing; the bridge starts, the executable
check in `start_connection` aborts, and the running bridge is left attached to
a connection whose status is `"Stopped"`. -/
def sC2 : FRPGUI :=
  add_serial_connection (initState "203.0.113.7" 7000 "secret" false) "COM3" 9600 3000 true true

/-- Claim C2 counterexample: a reachable manager state contains a connection
with status `"Stopped"` that still holds a live (running) SerialBridge —
refuting the claimed invariant that a `Stopped` connection holds no live
SerialBridge. -/
theorem stopped_conn_with_running_bridge_cex :
    Reachable sC2 ∧
    sC2.connections.any (fun c => (c.status == Status.Stopped) && connBridgeRunning c) = true :=
  ⟨Reachable.addSerial "COM3" 9600 3000 true true
    (Reachable.init "203.0.113.7" 7000 "secret" false), by decide⟩

/-- Claim C2 (amended): in every reachable manager state, a connection with
status `"Running"` holds a live child-process handle, and a connection with
status `"Stopped"` holds no live child-process handle; the bridge half of the
original claim is dropped, because a `Stopped` serial connection can retain a
running SerialBridge (executable missing at add time, or child process exited
on its own). -/
theorem running_has_live_process_stopped_has_none (s : FRPGUI) (hs : Reachable s) :
    ∀ c ∈ s.connections,
      (c.status = Status.Running → c.processLive = true) ∧
      (c.status = Status.Stopped → c.processLive = false) :=
  (reachable_inv hs).connOk

/-- Reachable state used by the amended claim C2 witness. -/
def sC2w : FRPGUI := add_tcp_connection (initState "a" 7000 "t" true) "10.0.0.1" 22 8022

/-- The running connection present in `sC2w`. -/
def cC2w : FRPConnection :=
  { local_ip := "10.0.0.1", local_port := 22, remote_port := 8022, ini_path := 0,
    conn_type := ConnType.tcp, serial_port := none, hasProcess := true, processLive := true,
    status := Status.Running, bridge := none, baudrate := none }

/-- Witness for the amended claim C2 theorem at a concrete reachable state:
the running connection of `sC2w` holds a live process handle. -/
theorem running_has_live_process_stopped_has_none_witness :
    cC2w.processLive = true :=
  (running_has_live_process_stopped_has_none sC2w
    (Reachable.addTcp "10.0.0.1" 22 8022 (Reachable.init "a" 7000 "t" true))
    cC2w (by decide)).1 rfl

/-- State used by the claim C3 counterexample (same scenario as C2: add a
serial mapping with the executable missing). -/
def sC3 : FRPGUI :=
  add_serial_connection (initState "203.0.113.7" 7000 "secret" false) "COM3" 9600 3000 true true

/-- Claim C3 counterexample: on a start attempt with the tunnel-client
executable missing, the SerialBridge created and started during that attempt
(by `add_serial_connection`, before `start_connection` checks the executable)
is NOT stopped and released: the resulting connection is `"Stopped"` yet its
bridge is still running — refuting the claim that no partial resources are
left running. -/
theorem missing_exe_leaves_started_bridge_cex :
    sC3.connections.map (fun c => (c.status, connBridgeRunning c))
      = [(Status.Stopped, true)] := by decide

/-- Claim C3 (amended): when the tunnel-client executable does not exist,
`start_connection` reports the failure and returns with the manager state
completely unchanged — the connection's status remains `"Stopped"` and
`start_connection` itself acquires no resources; however, a SerialBridge that
`add_serial_connection` started before invoking `start_connection` is not
stopped and remains running. -/
theorem start_with_missing_exe_is_noop (s : FRPGUI) (id : Nat) (openOk bindOk : Bool)
    (h : s.frpcExists = false) : start_connection s id openOk bindOk = s := by
  unfold start_connection updateConn
  have hpt : ∀ c ∈ s.connections,
      (if c.ini_path = id then start_connection_conn s.frpcExists openOk bindOk c else c) = c := by
    intro c _
    by_cases hc : c.ini_path = id
    · rw [if_pos hc]
      unfold start_connection_conn
      rw [h]
      split
      · rfl
      · rw [if_pos rfl]
    · rw [if_neg hc]
  rw [List.map_congr_left hpt]
  simp

/-- Witness for the amended claim C3 theorem at a concrete input. -/
theorem start_with_missing_exe_is_noop_witness :
    start_connection (initState "a" 7000 "t" false) 0 true true
      = initState "a" 7000 "t" false :=
  start_with_missing_exe_is_noop (initState "a" 7000 "t" false) 0 true true rfl

/-- Claim C4 counterexample: when the serial device opens but the local TCP
listener port cannot be bound, `SerialBridge.start` does NOT return a failure
to the caller — the `ThreadingTCPServer` constructor is outside the
`try/except`, so the exception escapes (raised, not returned), refuting the
claim that in either failure case the failure is returned rather than
raised. -/
theorem bind_failure_raises_cex :
    raisedOutcome (SerialBridge.start (SerialBridge.mk0 "COM3" 9600 23000) true false) = true ∧
    returnedFalse (SerialBridge.start (SerialBridge.mk0 "COM3" 9600 23000) true false) = false := by
  decide

/-- Claim C4 (amended): `SerialBridge.start` returns failure (`False`, no
running bridge) when the serial device cannot be opened; but when the local
TCP listener port cannot be bound, the exception propagates to the caller
(raised, not returned), with the serial device left open and no accept loop
running. -/
theorem bridge_start_failure_modes (sp : String) (baud lp : Nat) (bindOk : Bool) :
    SerialBridge.start (SerialBridge.mk0 sp baud lp) false bindOk
      = BridgeStartOutcome.failed (SerialBridge.mk0 sp baud lp) ∧
    (SerialBridge.mk0 sp baud lp).running = false ∧
    SerialBridge.start (SerialBridge.mk0 sp baud lp) true false
      = BridgeStartOutcome.raised { SerialBridge.mk0 sp baud lp with serOpen := true } ∧
    { SerialBridge.mk0 sp baud lp with serOpen := true }.running = false :=
  ⟨rfl, rfl, rfl, rfl⟩

/-- Claim C5: for every connection in a reachable manager state, if its
child-process output contains a line matching the conflict signature (both
substrings `start error: proxy [` and `] already exists` after stripping),
then after processing that output the connection is removed from the active
set entirely — no connection with its identity remains in the list — and the
caller is notified of the conflict (a warning naming the connection's public
port was shown). -/
theorem conflict_line_removes_connection (s : FRPGUI) (hs : Reachable s)
    (c : FRPConnection) (_hc : c ∈ s.connections) (lines : List String)
    (l : String) (hl : l ∈ lines) (hcf : conflictLineB l = true) :
    (∀ c' ∈ (process_output s c lines).connections, c'.ini_path ≠ c.ini_path) ∧
    c.remote_port ∈ (process_output s c lines).warnings := by
  have hinv := reachable_inv hs
  have hmem := read_output_self_mem (c := c) hl hcf
  obtain ⟨x, xs, hxe⟩ : ∃ x xs, read_output c lines = x :: xs := by
    cases hro : read_output c lines with
    | nil => rw [hro] at hmem; cases hmem
    | cons x xs => exact ⟨x, xs, rfl⟩
  have hx : x = c := read_output_all_eq x (by rw [hxe]; exact List.mem_cons_self _ _)
  unfold process_output
  rw [hxe, List.foldl_cons, hx]
  constructor
  · apply foldl_handle_absent
    intro c' hc'
    exact remove_connection_absent (warn_inv hinv) c' hc'
  · apply foldl_handle_warn_mono
    rw [handle_warnings]
    exact List.mem_append_right _ (List.mem_singleton.mpr rfl)

/-- Reachable state used by the claim C5 witness. -/
def sC5 : FRPGUI := add_tcp_connection (initState "a" 7000 "t" true) "10.0.0.1" 22 3389

/-- The connection present in `sC5`. -/
def cC5 : FRPConnection :=
  { local_ip := "10.0.0.1", local_port := 22, remote_port := 3389, ini_path := 0,
    conn_type := ConnType.tcp, serial_port := none, hasProcess := true, processLive := true,
    status := Status.Running, bridge := none, baudrate := none }

/-- Witness for the claim C5 theorem at a concrete reachable state and output
stream: the conflict warning names the removed connection's public port. -/
theorem conflict_line_removes_connection_witness :
    cC5.remote_port ∈ (process_output sC5 cC5 ["start error: proxy [3389] already exists"]).warnings :=
  (conflict_line_removes_connection sC5
    (Reachable.addTcp "10.0.0.1" 22 3389 (Reachable.init "a" 7000 "t" true))
    cC5 (by decide) ["start error: proxy [3389] already exists"]
    "start error: proxy [3389] already exists" (List.mem_singleton.mpr rfl) (by decide)).2

/-- State used by the claim C6 counterexample: one TCP mapping added (its
configuration artifact is on disk), then removed. -/
def sC6 : FRPGUI :=
  add_tcp_connection (initState "203.0.113.7" 7000 "secret" true) "10.0.0.1" 3389 13389

/-- Claim C6 counterexample: `remove_connection` discards the record from the
active set but does NOT delete the connection's configuration artifact: after
removing the only connection, the artifact written at creation is still on
disk — refuting the claim that remove deletes the configuration artifact. -/
theorem remove_keeps_artifact_cex :
    (remove_connection sC6 0).connections = [] ∧
    (remove_connection sC6 0).artifacts = sC6.artifacts ∧
    sC6.artifacts ≠ [] :=
  ⟨by decide, rfl, by decide⟩

/-- Claim C6 (amended): `remove_connection` performs stop (when the connection
is not already `"Stopped"`) and discards the Connection record from the active
set, but it does NOT delete the connection's configuration artifact from disk
— the artifacts on disk are exactly unchanged (artifacts are only deleted by
the application-shutdown path). -/
theorem remove_discards_record_keeps_artifact (s : FRPGUI) (hs : Reachable s) (id : Nat) :
    (remove_connection s id).artifacts = s.artifacts ∧
    ∀ c' ∈ (remove_connection s id).connections, c'.ini_path ≠ id :=
  ⟨rfl, remove_connection_absent (reachable_inv hs)⟩

/-- Witness for the amended claim C6 theorem at a concrete reachable state:
remove leaves the artifacts on disk unchanged. -/
theorem remove_discards_record_keeps_artifact_witness :
    (remove_connection (initState "a" 7000 "t" true) 5).artifacts
      = (initState "a" 7000 "t" true).artifacts :=
  (remove_discards_record_keeps_artifact (initState "a" 7000 "t" true)
    (Reachable.init "a" 7000 "t" true) 5).1

/-- Claim C7 counterexample: the claim's concrete instance `remote port 3000
derives 23000` is false — `20000 + 3000 % 1000 = 20000 + 0 = 20000`, and the
code derives local bridge port 20000 for remote port 3000, both at creation
and at re-start. -/
theorem derived_port_3000_is_20000_cex :
    addSerialLocalPort 3000 = 20000 ∧ ¬ addSerialLocalPort 3000 = 23000 ∧
    startConnLocalPort 3000 = 20000 ∧ ¬ startConnLocalPort 3000 = 23000 := by
  decide

/-- Claim C7 (amended): the derived local bridge port is
`20000 + remotePort % 1000`; the formula used at creation
(`add_serial_connection`, line 554) and the one used at every re-start
(`start_connection`, line 775) agree; remote port 3000 derives 20000 (not
23000 as the claim's example computes it) and remote port 12345 derives
20345; and a successful re-start of a stopped serial connection sets the
connection's local port to the derived value. -/
theorem local_bridge_port_derivation :
    (∀ r : Nat, addSerialLocalPort r = startConnLocalPort r) ∧
    (∀ r : Nat, addSerialLocalPort r = 20000 + r % 1000) ∧
    addSerialLocalPort 3000 = 20000 ∧ addSerialLocalPort 12345 = 20345 ∧
    startConnLocalPort 3000 = 20000 ∧ startConnLocalPort 12345 = 20345 ∧
    ∀ c : FRPConnection, c.status = Status.Stopped → c.conn_type = ConnType.serial →
      ∀ baud : Nat, c.baudrate = some baud →
        (start_connection_conn true true true c).local_port
          = startConnLocalPort c.remote_port := by
  refine ⟨fun r => rfl, fun r => rfl, by decide, by decide, by decide, by decide, ?_⟩
  intro c hst hty baud hb
  unfold start_connection_conn
  rw [if_neg (by rw [hst]; intro hcontra; cases hcontra),
      if_neg (by intro hcontra; cases hcontra)]
  rw [hty, hb]
  dsimp only
  simp [SerialBridge.start]

/-- Connection used by the claim C7 witness. -/
def cC7 : FRPConnection :=
  { local_ip := "127.0.0.1", local_port := 23000, remote_port := 12345, ini_path := 0,
    conn_type := ConnType.serial, serial_port := some "COM3", hasProcess := false,
    processLive := false, status := Status.Stopped, bridge := none, baudrate := some 9600 }

/-- Witness for the claim C7 theorem at a concrete input. -/
theorem local_bridge_port_derivation_witness :
    (start_connection_conn true true true cC7).local_port
      = startConnLocalPort cC7.remote_port :=
  local_bridge_port_derivation.2.2.2.2.2.2 cC7 rfl rfl 9600 rfl

/-- State used by the claim C8 counterexample: a TCP mapping added and
running. -/
def sC8a : FRPGUI :=
  add_tcp_connection (initState "203.0.113.7" 7000 "secret" true) "10.0.0.1" 22 8022

/-- `sC8a` after a stop and a second start of the same connection. -/
def sC8b : FRPGUI := start_connection (stop_connection sC8a 0) 0 true true

/-- Claim C8 counterexample: a re-start does NOT write a fresh configuration
artifact.  After stopping and starting the connection again (a second start,
which reaches `"Running"`), the artifacts on disk are exactly those written at
creation — a single artifact — refuting the claim that each start writes a
fresh uniquely named artifact. -/
theorem restart_writes_no_artifact_cex :
    sC8b.connections.map (fun c => c.status) = [Status.Running] ∧
    sC8b.artifacts = sC8a.artifacts ∧
    sC8b.artifacts.length = 1 :=
  ⟨by decide, rfl, by decide⟩

/-- Claim C8 (amended): the generated configuration artifact has exactly the
specified shape — a common section with `server_addr`, `server_port`,
`authentication_method` fixed to `token`, and `token`, plus one
`proxy_<remotePort>` section with `type=tcp`, the local IP (`127.0.0.1` for
serial, the given IP for tcp), the local port (the derived bridge port for
serial, the given port for tcp) and the remote port.  Each connection
CREATION writes a fresh, uniquely named artifact and never mutates an
existing one (artifact names in any reachable state are pairwise distinct);
but a re-start writes nothing — `start_connection` leaves the artifacts on
disk unchanged, reusing the artifact written at creation. -/
theorem config_artifact_shape_and_freshness :
    (∀ (a : String) (p : Nat) (t li : String) (lp r : Nat),
      makeFrpConfig a p t li lp r = specConfigArtifact a p t li lp r) ∧
    (∀ (s : FRPGUI) (ip : String) (port r : Nat), ip ≠ "" → 1 ≤ r → r ≤ 65535 →
      (add_tcp_connection s ip port r).artifacts
        = s.artifacts ++ [(s.nextPath,
            makeFrpConfig s.server_addr s.server_port s.server_token ip port r)]) ∧
    (∀ (s : FRPGUI) (com : String) (baud r : Nat) (openOk : Bool),
      com ≠ "" → 1 ≤ r → r ≤ 65535 →
      (add_serial_connection s com baud r openOk true).artifacts
        = if openOk = true then
            s.artifacts ++ [(s.nextPath, makeFrpConfig s.server_addr s.server_port
              s.server_token "127.0.0.1" (addSerialLocalPort r) r)]
          else s.artifacts) ∧
    (∀ (s : FRPGUI) (id : Nat) (openOk bindOk : Bool),
      (start_connection s id openOk bindOk).artifacts = s.artifacts) ∧
    (∀ s : FRPGUI, Reachable s → (s.artifacts.map (fun pc => pc.1)).Nodup) := by
  refine ⟨fun a p t li lp r => rfl, ?_, ?_, fun s id o b => rfl,
    fun s hs => (reachable_inv hs).artNodup⟩
  · intro s ip port r hip h1 h2
    unfold add_tcp_connection
    rw [if_neg hip, if_neg (not_not_intro ⟨h1, h2⟩)]
    rfl
  · intro s com baud r openOk hcom h1 h2
    unfold add_serial_connection
    rw [if_neg hcom, if_neg (not_not_intro ⟨h1, h2⟩)]
    cases openOk with
    | false => rfl
    | true => rfl

/-- Witness for the amended claim C8 theorem at a concrete input. -/
theorem config_artifact_shape_and_freshness_witness :
    (add_tcp_connection (initState "a" 7000 "t" true) "10.0.0.1" 22 8022).artifacts
      = (initState "a" 7000 "t" true).artifacts
        ++ [((initState "a" 7000 "t" true).nextPath,
             makeFrpConfig "a" 7000 "t" "10.0.0.1" 22 8022)] :=
  config_artifact_shape_and_freshness.2.1 (initState "a" 7000 "t" true) "10.0.0.1" 22 8022
    (by decide) (by decide) (by decide)

lemma delete_config_files_keeps_orphan (conns : List FRPConnection)
    (arts : List (Nat × ConfigFile)) :
    ∀ pc ∈ arts, (∀ c ∈ conns, c.ini_path ≠ pc.1) →
      pc ∈ delete_config_files conns arts := by
  intro pc hpc h
  unfold delete_config_files
  rw [List.mem_filter]
  refine ⟨hpc, ?_⟩
  rw [List.all_eq_true]
  intro c hc
  simpa using h c hc

/-- State used by the claim C9 counterexample: two TCP mappings added, then
the first removed (its artifact stays on disk per `remove_connection`) and the
second stopped. -/
def sC9a : FRPGUI :=
  add_tcp_connection
    (add_tcp_connection (initState "203.0.113.7" 7000 "secret" true) "10.0.0.1" 22 8022)
    "10.0.0.2" 23 8023

/-- `sC9a` after removing the first connection and stopping the second. -/
def sC9b : FRPGUI := stop_connection (remove_connection sC9a 0) 1

/-- Claim C9 counterexample: shutdown does NOT leave zero artifacts on disk
even when every connection reaches `"Stopped"` within the budget.  In the
reachable state `sC9b` a previously removed connection's artifact is orphaned
(remove never deletes it); all remaining connections are already `"Stopped"`,
so the shutdown poll exits normally at poll 0 — yet the artifacts left on
disk are non-empty, because `check_all_stopped` deletes only the artifacts of
connections still in the list. -/
theorem orphan_artifact_survives_shutdown_cex :
    Reachable sC9b ∧
    allStoppedB sC9b.connections = true ∧
    (check_all_stopped (fun _ => sC9b.connections) sC9b.artifacts 0).2 = false ∧
    (check_all_stopped (fun _ => sC9b.connections) sC9b.artifacts 0).1 ≠ [] := by
  have h := check_all_stopped_reaches (fun _ => sC9b.connections) sC9b.artifacts 0
    (by omega) (by decide) 0 0 (by omega)
    (fun m _ hm2 => absurd hm2 (Nat.not_lt_zero m))
  refine ⟨?_, by decide, ?_, ?_⟩
  · exact Reachable.stopConn 1 (Reachable.removeConn 0
      (Reachable.addTcp "10.0.0.2" 23 8023 (Reachable.addTcp "10.0.0.1" 22 8022
        (Reachable.init "203.0.113.7" 7000 "secret" true))))
  · rw [h]
  · rw [h]
    decide

/-- Claim C9 (amended): application shutdown triggers stop on every active
connection (every connection in the stop-all sweep ends `"Stopped"`), then
polls at a fixed 200 ms interval: if at some poll within the 10-second budget
(poll `n ≤ 50`, i.e. elapsed `200 * n ≤ 10000` ms) all connections are
`"Stopped"` — and no earlier poll saw them all stopped — the loop deletes
every CURRENT connection's configuration artifact and exits normally, so no
artifact belonging to a then-active connection remains; but artifacts whose
path belongs to no current connection (e.g. of connections removed before
shutdown) are NOT deleted and remain on disk, so "zero artifacts remain"
holds only when every artifact on disk belongs to a current connection.  If
no poll within the budget sees all connections stopped, the loop forces
termination regardless of state, with the artifacts untouched. -/
theorem shutdown_polls_and_deletes_artifacts (connsAt : Nat → List FRPConnection)
    (arts : List (Nat × ConfigFile)) :
    (∀ conns : List FRPConnection, ∀ c ∈ on_close_stop_all conns,
        c.status = Status.Stopped) ∧
    (∀ n, n ≤ 50 → (∀ m, m < n → allStoppedB (connsAt m) = false) →
      allStoppedB (connsAt n) = true →
      check_all_stopped connsAt arts 0 = (delete_config_files (connsAt n) arts, false) ∧
      (∀ c ∈ connsAt n, ∀ pc ∈ delete_config_files (connsAt n) arts, pc.1 ≠ c.ini_path) ∧
      (∀ pc ∈ arts, (∀ c ∈ connsAt n, c.ini_path ≠ pc.1) →
        pc ∈ delete_config_files (connsAt n) arts) ∧
      ((∀ pc ∈ arts, ∃ c ∈ connsAt n, pc.1 = c.ini_path) →
        delete_config_files (connsAt n) arts = [])) ∧
    ((∀ m, m ≤ 50 → allStoppedB (connsAt m) = false) →
      check_all_stopped connsAt arts 0 = (arts, true)) := by
  refine ⟨?_, ?_, ?_⟩
  · intro conns c hc
    rcases List.mem_map.mp hc with ⟨c0, _, hce⟩
    rw [← hce]
    exact stop_connection_conn_status c0
  · intro n h50 hbef hstop
    refine ⟨?_, delete_config_files_not_mem _ _, delete_config_files_keeps_orphan _ _,
      delete_config_files_all_owned _ _⟩
    exact check_all_stopped_reaches connsAt arts n h50 hstop n 0 (by omega)
      (fun m _ hm2 => hbef m hm2)
  · intro hnever
    exact check_all_stopped_forced connsAt arts hnever 51 0 (by omega)

/-- Connection used by the claim C9 witness. -/
def cC9 : FRPConnection :=
  { local_ip := "10.0.0.1", local_port := 22, remote_port := 8022, ini_path := 0,
    conn_type := ConnType.tcp, serial_port := none, hasProcess := false, processLive := false,
    status := Status.Stopped, bridge := none, baudrate := none }

/-- Witness for the claim C9 theorem at a concrete input: one stopped
connection from poll 0 onwards is drained with its artifact deleted. -/
theorem shutdown_polls_and_deletes_artifacts_witness :
    check_all_stopped (fun _ => [cC9]) [(0, [])] 0
      = (delete_config_files [cC9] [(0, [])], false) :=
  ((shutdown_polls_and_deletes_artifacts (fun _ => [cC9]) [(0, [])]).2.1 0 (by omega)
    (fun m hm => absurd hm (Nat.not_lt_zero m)) (by decide)).1

/-- Connection used by the claim C10 theorem and witness: its remote port is
3389, deliberately different from the port named in the matched lines. -/
def cC10 : FRPConnection :=
  { local_ip := "10.0.0.1", local_port := 3389, remote_port := 3389, ini_path := 0,
    conn_type := ConnType.tcp, serial_port := none, hasProcess := true, processLive := true,
    status := Status.Running, bridge := none, baudrate := none }

/-- Claim C10: the conflict match is purely substring-based and insensitive to
the port named in the brackets — the scan schedules exactly one conflict
handler invocation per non-empty matching line, each targeting the connection
that produced the stream, so a stream with several matching lines triggers the
handler several times; concretely, lines naming port 9999 trigger the handler
twice for the connection whose remote port is 3389. -/
theorem conflict_scan_is_substring_based :
    (∀ (c : FRPConnection) (lines : List String),
      (read_output c lines).length = lines.countP conflictLineB ∧
      ∀ x ∈ read_output c lines, x = c) ∧
    isConflictLine "2025/01/02 12:00:00 [W] start error: proxy [9999] already exists" = true ∧
    read_output cC10
        ["start error: proxy [9999] already exists", "login to server success",
         "start error: proxy [9999] already exists"]
      = [cC10, cC10] := by
  refine ⟨fun c lines => ⟨read_output_length c lines, read_output_all_eq⟩, by decide, by decide⟩

/-- Witness for the claim C10 theorem at a concrete input. -/
theorem conflict_scan_is_substring_based_witness :
    (read_output cC10 ["login to server success"]).length
      = ["login to server success"].countP conflictLineB :=
  (conflict_scan_is_substring_based.1 cC10 ["login to server success"]).1

end RemoteConsoleTcp
